import Mathlib

/-!
Verification of the Email Intelligence Sync Pipeline of the COS repository
(`personal-ai-assistant`), as described by its natural-language specification.

The development shallowly embeds the relevant Python code:

* `backend/core/claude_integration/email_intelligence.py`
  (`EmailIntelligence.analyze_recent_emails`, `_get_structured_response`);
* `backend/services/intelligence_service.py`
  (`IntelligenceService.process_and_store_email_insights`,
  `_update_contact_intelligence`);
* `backend/models/database/insights_storage.py` (the SQLAlchemy models);
* `backend/main.py` (`sync_emails`, `api_sync_status`).

Python dictionaries holding JSON data are modelled as association lists in
insertion order; machine-level detail that none of the verified claims touch
(prompt text construction, SQLAlchemy column typing, HTTP plumbing) is
abstracted behind explicit oracle parameters.  Numeric JSON literals are
modelled as integers: no verified claim involves fractional payloads.
-/

/-- JSON values as produced by Python `json.loads`.  Objects keep insertion
order, as Python dictionaries do. -/
inductive Json where
  | null
  | bool (b : Bool)
  | num (n : Int)
  | str (s : String)
  | arr (elems : List Json)
  | obj (fields : List (String × Json))

/-- Left brace character, written via its code point. -/
def lbrace : Char := '\x7b'

/-- Right brace character, written via its code point. -/
def rbrace : Char := '\x7d'

/-- Lookup in a Python dict modelled as an association list
(`d.get(k)` returning `None` when absent). -/
def dictGet (d : List (String × Json)) (k : String) : Option Json :=
  (d.find? (fun p => p.1 == k)).map (·.2)

/-- Lookup with a default (`d.get(k, dflt)`). -/
def dictGetD (d : List (String × Json)) (k : String) (dflt : Json) : Json :=
  (dictGet d k).getD dflt

/-- Python dict assignment `d[k] = v`: updates the value in place when the key
exists (keeping its position), appends otherwise. -/
def dictSet (d : List (String × Json)) (k : String) (v : Json) : List (String × Json) :=
  if d.any (fun p => p.1 == k) then
    d.map (fun p => if p.1 == k then (k, v) else p)
  else
    d ++ [(k, v)]

/-- Membership test `k in d` on a Python dict. -/
def dictHas (d : List (String × Json)) (k : String) : Bool :=
  d.any (fun p => p.1 == k)

/-- Truthiness of a Python list value (`if xs:`). -/
def pyTruthyList (l : List Json) : Bool := !l.isEmpty

/-- Truthiness of a JSON value under Python semantics. -/
def pyTruthy : Json → Bool
  | .null => false
  | .bool b => b
  | .num n => n != 0
  | .str s => s != ""
  | .arr l => !l.isEmpty
  | .obj f => !f.isEmpty

/-- Characters stripped by Python `str.strip()` with no argument
(ASCII whitespace). -/
def isPySpace (c : Char) : Bool :=
  c == ' ' || c == '\t' || c == '\n' || c == '\r' || c == '\x0b' || c == '\x0c'

/-- Python `str.strip(chars)`: removes from both ends every character that is a
member of the given set (not the literal substring). -/
def pyStripChars (cs : List Char) (s : List Char) : List Char :=
  ((s.dropWhile (cs.contains ·)).reverse.dropWhile (cs.contains ·)).reverse

/-- Python `str.strip()` with no argument: strips ASCII whitespace. -/
def pyStripWs (s : List Char) : List Char :=
  ((s.dropWhile isPySpace).reverse.dropWhile isPySpace).reverse

/-- Whitespace characters that `json.loads` skips between tokens. -/
def isJsonWs (c : Char) : Bool :=
  c == ' ' || c == '\t' || c == '\n' || c == '\r'

/-- Hexadecimal digit test. -/
def isHexDigitChar (c : Char) : Bool :=
  ('0' ≤ c && c ≤ '9') || ('a' ≤ c && c ≤ 'f') || ('A' ≤ c && c ≤ 'F')

/-- Value of a hexadecimal digit character. -/
def hexVal (c : Char) : Nat :=
  if '0' ≤ c && c ≤ '9' then c.toNat - '0'.toNat
  else if 'a' ≤ c && c ≤ 'f' then c.toNat - 'a'.toNat + 10
  else if 'A' ≤ c && c ≤ 'F' then c.toNat - 'A'.toNat + 10
  else 0

/-- Parses the body of a JSON string literal (after the opening quote),
returning the decoded string and the rest of the input.  Strict mode: raw
control characters are rejected; the common escapes and `\uXXXX` are
supported. -/
def parseJsonStringBody : Nat → List Char → List Char → Option (String × List Char)
  | 0, _, _ => none
  | _ + 1, [], _ => none
  | fuel + 1, c :: rest, acc =>
    if c == '"' then
      some (String.mk acc.reverse, rest)
    else if c == '\\' then
      match rest with
      | [] => none
      | e :: rest2 =>
        if e == '"' then parseJsonStringBody fuel rest2 ('"' :: acc)
        else if e == '\\' then parseJsonStringBody fuel rest2 ('\\' :: acc)
        else if e == '/' then parseJsonStringBody fuel rest2 ('/' :: acc)
        else if e == 'b' then parseJsonStringBody fuel rest2 ('\x08' :: acc)
        else if e == 'f' then parseJsonStringBody fuel rest2 ('\x0c' :: acc)
        else if e == 'n' then parseJsonStringBody fuel rest2 ('\n' :: acc)
        else if e == 'r' then parseJsonStringBody fuel rest2 ('\r' :: acc)
        else if e == 't' then parseJsonStringBody fuel rest2 ('\t' :: acc)
        else if e == 'u' then
          match rest2 with
          | h1 :: h2 :: h3 :: h4 :: rest3 =>
            if isHexDigitChar h1 && isHexDigitChar h2 && isHexDigitChar h3 && isHexDigitChar h4 then
              let v := 4096 * hexVal h1 + 256 * hexVal h2 + 16 * hexVal h3 + hexVal h4
              parseJsonStringBody fuel rest3 (Char.ofNat v :: acc)
            else none
          | _ => none
        else none
    else if c.toNat < 32 then none
    else parseJsonStringBody fuel rest (c :: acc)

/-- Digit characters. -/
def isDigitChar (c : Char) : Bool := '0' ≤ c && c ≤ '9'

/-- Parses a JSON integer literal per the JSON grammar (`-?(0|[1-9][0-9]*)`).
The model rejects fraction and exponent parts: no claim under verification
involves non-integer numeric payloads. -/
def parseJsonInt (s : List Char) : Option (Int × List Char) :=
  let (neg, s1) := match s with
    | '-' :: rest => (true, rest)
    | _ => (false, s)
  let digits := s1.takeWhile isDigitChar
  let rest := s1.dropWhile isDigitChar
  if digits.isEmpty then none
  else if digits.length > 1 && digits.head? == some '0' then none
  else
    match rest with
    | '.' :: _ => none
    | 'e' :: _ => none
    | 'E' :: _ => none
    | _ =>
      let n : Int := digits.foldl (fun a c => a * 10 + (c.toNat - '0'.toNat : Int)) 0
      some (if neg then -n else n, rest)

mutual

/-- Parses one JSON value (leading whitespace allowed), modelling the strict
decoder used by Python `json.loads`. -/
def parseJsonValue : Nat → List Char → Option (Json × List Char)
  | 0, _ => none
  | fuel + 1, s =>
    match s.dropWhile isJsonWs with
    | [] => none
    | c :: rest =>
      if c == lbrace then
        match (rest.dropWhile isJsonWs) with
        | d :: rest2 =>
          if d == rbrace then some (.obj [], rest2)
          else parseJsonMembers fuel (rest.dropWhile isJsonWs) []
        | [] => none
      else if c == '[' then
        match (rest.dropWhile isJsonWs) with
        | d :: rest2 =>
          if d == ']' then some (.arr [], rest2)
          else parseJsonElements fuel (rest.dropWhile isJsonWs) []
        | [] => none
      else if c == '"' then
        match parseJsonStringBody (rest.length + 1) rest [] with
        | some (str, rest2) => some (.str str, rest2)
        | none => none
      else if ['t', 'r', 'u', 'e'].isPrefixOf (c :: rest) then
        some (.bool true, (c :: rest).drop 4)
      else if ['f', 'a', 'l', 's', 'e'].isPrefixOf (c :: rest) then
        some (.bool false, (c :: rest).drop 5)
      else if ['n', 'u', 'l', 'l'].isPrefixOf (c :: rest) then
        some (.null, (c :: rest).drop 4)
      else
        match parseJsonInt (c :: rest) with
        | some (n, rest2) => some (.num n, rest2)
        | none => none

/-- Parses the members of a JSON object (input positioned at the first key);
duplicate keys keep the last value at the first position, as Python dicts do. -/
def parseJsonMembers : Nat → List Char → List (String × Json) → Option (Json × List Char)
  | 0, _, _ => none
  | fuel + 1, s, acc =>
    match s with
    | '"' :: rest =>
      match parseJsonStringBody (rest.length + 1) rest [] with
      | some (key, rest2) =>
        match rest2.dropWhile isJsonWs with
        | ':' :: rest3 =>
          match parseJsonValue fuel rest3 with
          | some (v, rest4) =>
            let acc2 := dictSet acc key v
            match rest4.dropWhile isJsonWs with
            | ',' :: rest5 => parseJsonMembers fuel (rest5.dropWhile isJsonWs) acc2
            | d :: rest5 =>
              if d == rbrace then some (.obj acc2, rest5) else none
            | [] => none
          | none => none
        | _ => none
      | none => none
    | _ => none

/-- Parses the elements of a JSON array (input positioned at the first
element). -/
def parseJsonElements : Nat → List Char → List Json → Option (Json × List Char)
  | 0, _, _ => none
  | fuel + 1, s, acc =>
    match parseJsonValue fuel s with
    | some (v, rest) =>
      match rest.dropWhile isJsonWs with
      | ',' :: rest2 => parseJsonElements fuel rest2 (acc ++ [v])
      | d :: rest2 =>
        if d == ']' then some (.arr (acc ++ [v]), rest2) else none
      | [] => none
    | none => none

end

/-- Model of Python `json.loads` on a character list: decodes one value and
requires only whitespace to remain.  `none` models `json.JSONDecodeError`. -/
def jsonDecode (s : List Char) : Option Json :=
  match parseJsonValue (4 * s.length + 4) s with
  | some (v, rest) => if rest.dropWhile isJsonWs == [] then some v else none
  | none => none

/-- Characters of the `"```json"` strip argument
(source `email_intelligence.py:441`). -/
def fenceJsonChars : List Char := "```json".data

/-- Characters of the `"```"` strip argument. -/
def fenceChars : List Char := "```".data

/-- Code-fence cleaning performed on the raw model response
(source `email_intelligence.py:440-443`).  Python `str.strip(chars)` strips a
character set, so the `"```json"` argument also eats stray `j`, `s`, `o`, `n`
characters at either end. -/
def cleanFences (s : List Char) : List Char :=
  if fenceJsonChars.isPrefixOf s then
    pyStripWs (pyStripChars fenceChars (pyStripChars fenceJsonChars s))
  else if fenceChars.isPrefixOf s then
    pyStripWs (pyStripChars fenceChars s)
  else s

/-- Model of `re.search(r'(\x7b.*\x7d)', s, re.DOTALL)` followed by
`.group(1)` (source `email_intelligence.py:452-454`): the greedy match runs
from the first left brace that has some right brace after it, to the last
right brace of the whole text. -/
def extractBraces (s : List Char) : Option (List Char) :=
  if s.contains lbrace && s.contains rbrace then
    let i := s.findIdx (· == lbrace)
    let j := s.length - 1 - s.reverse.findIdx (· == rbrace)
    if i < j then some ((s.drop i).take (j - i + 1)) else none
  else none

/-- Default value per expected key (source `email_intelligence.py:458`):
`[]` for a truthy key other than `communication_patterns`, else an empty
dict. -/
def defaultVal (k : String) : Json :=
  if k != "" && k != "communication_patterns" then .arr [] else .obj []

/-- Value returned by every failure path of `_get_structured_response`
(source lines 458, 466-468, 470-472).  The per-site error message strings are
abstracted into one constant; no verified claim inspects them. -/
def parseFailureDefault (k : String) : Json :=
  if k != "" then .obj [(k, defaultVal k)]
  else .obj [("error", .str "Failed to parse response as JSON")]

/-- Python substring membership `k in s` on strings. -/
def strContainsSub (s k : List Char) : Bool :=
  (List.range (s.length + 1)).any (fun i => k.isPrefixOf (s.drop i))

/-- Expected-key validation (source `email_intelligence.py:461-463`): when the
decoded value is a dict missing the expected key, the default is injected.
When the decoded value is not a dict, the Python membership test or item
assignment raises `TypeError`, which the enclosing handler (line 466) turns
into the default response; for decoded strings and lists the membership test
itself can succeed, in which case the value is returned unchanged. -/
def applyExpectedKey (v : Json) (k : String) : Json :=
  if k == "" then v
  else match v with
    | .obj fields =>
      if dictHas fields k then .obj fields
      else .obj (dictSet fields k (defaultVal k))
    | .arr elems =>
      if elems.any (fun x => match x with | .str s => s == k | _ => false)
      then .arr elems else parseFailureDefault k
    | .str s =>
      if strContainsSub s.data k.data then .str s else parseFailureDefault k
    | _ => parseFailureDefault k

/-- Parse stage of `_get_structured_response`
(source `email_intelligence.py:437-468`): clean code fences, attempt a strict
decode of the whole text, else decode the greedy first-brace-to-last-brace
substring, else return the default; a decoded value then passes the
expected-key validation. -/
def parseStructuredResponse (raw : String) (expected_key : String) : Json :=
  let s := cleanFences raw.data
  match jsonDecode s with
  | some v => applyExpectedKey v expected_key
  | none =>
    match extractBraces s with
    | some sub =>
      match jsonDecode sub with
      | some v => applyExpectedKey v expected_key
      | none => parseFailureDefault expected_key
    | none => parseFailureDefault expected_key

/-- Full `_get_structured_response` (source `email_intelligence.py:391-472`):
the LLM completion is an oracle returning either the response text or a raised
exception; any exception resolves to the default response via the outer
handler (lines 470-472). -/
def getStructuredResponse (llm : Except String String) (expected_key : String) : Json :=
  match llm with
  | .ok text => parseStructuredResponse text expected_key
  | .error _ => parseFailureDefault expected_key

/-- The five analysis categories (spec section 3; source
`analyze_recent_emails` lines 105-128). -/
inductive AnalysisCategory where
  | relationships
  | projects
  | patterns
  | actions
  | info
deriving DecidableEq

/-- Expected top-level response key of each category. -/
def AnalysisCategory.expectedKey : AnalysisCategory → String
  | .relationships => "key_relationships"
  | .projects => "active_projects"
  | .patterns => "communication_patterns"
  | .actions => "action_items"
  | .info => "important_information"

/-- Documented default empty value of each category: a list for all except
`patterns`, which defaults to an empty map. -/
def AnalysisCategory.defaultValue : AnalysisCategory → Json
  | .patterns => .obj []
  | _ => .arr []

/-- Stripping a character set from both ends yields a contiguous substring. -/
theorem infix_of_stripBoth (p : Char → Bool) (l : List Char) :
    ((l.dropWhile p).reverse.dropWhile p).reverse <:+: l := by
  have h1 : l.dropWhile p <:+ l := List.dropWhile_suffix p
  have h2 : (l.dropWhile p).reverse.dropWhile p <:+ (l.dropWhile p).reverse :=
    List.dropWhile_suffix p
  have h3 : ((l.dropWhile p).reverse.dropWhile p).reverse <+: l.dropWhile p := by
    rw [← List.reverse_suffix]
    simpa using h2
  exact h3.isInfix.trans h1.isInfix

/-- Specialization to `pyStripChars`. -/
theorem infix_of_pyStripChars (cs : List Char) (s : List Char) :
    pyStripChars cs s <:+: s :=
  infix_of_stripBoth (cs.contains ·) s

/-- Specialization to `pyStripWs`. -/
theorem infix_of_pyStripWs (s : List Char) : pyStripWs s <:+: s :=
  infix_of_stripBoth isPySpace s

/-- The fence-cleaned response text is a contiguous substring of the raw
response text. -/
theorem infix_of_cleanFences (s : List Char) : cleanFences s <:+: s := by
  unfold cleanFences
  split
  · exact (infix_of_pyStripWs _).trans
      ((infix_of_pyStripChars _ _).trans (infix_of_pyStripChars _ _))
  · split
    · exact (infix_of_pyStripWs _).trans (infix_of_pyStripChars _ _)
    · exact List.infix_refl s

/-- The greedy brace extraction yields a contiguous substring. -/
theorem infix_of_extractBraces {s t : List Char} (h : extractBraces s = some t) :
    t <:+: s := by
  simp only [extractBraces] at h
  split at h
  · split at h
    · cases h
      exact ( List.take_prefix _ _).isInfix.trans (List.drop_suffix _ _).isInfix
    · cases h
  · cases h

/-- A contiguous substring is a bounded drop-then-take of the ambient list. -/
theorem exists_drop_take_of_infix {t s : List Char} (h : t <:+: s) :
    ∃ i j, i ≤ s.length ∧ j ≤ s.length ∧ t = (s.drop i).take j := by
  obtain ⟨u, v, huv⟩ := h
  refine ⟨u.length, t.length, ?_, ?_, ?_⟩
  · have := congrArg List.length huv
    simp [List.length_append] at this
    omega
  · have := congrArg List.length huv
    simp [List.length_append] at this
    omega
  · rw [← huv, List.append_assoc, List.drop_left, List.take_left]

/-- When no bounded substring of a text decodes as JSON, no contiguous
substring of it decodes as JSON. -/
theorem jsonDecode_eq_none_of_infix {base t : List Char}
    (h : ∀ i < base.length + 1, ∀ j < base.length + 1,
      (jsonDecode ((base.drop i).take j)).isNone)
    (ht : t <:+: base) : jsonDecode t = none := by
  obtain ⟨i, j, hi, hj, rfl⟩ := exists_drop_take_of_infix ht
  exact Option.isNone_iff_eq_none.mp (h i (by omega) j (by omega))

/-- C7: for every category and every raw response text containing no decodable
JSON anywhere (no contiguous substring decodes), the parse stage of
`_get_structured_response` returns the object mapping the category's expected
key to its documented default (empty list, empty map for
`communication_patterns`) — and, being a total function, it never raises:
every Python exception path of the source is an explicit default-returning
branch of the embedding. -/
theorem parse_default_on_undecodable_text (c : AnalysisCategory) (raw : String)
    (h : ∀ i < raw.data.length + 1, ∀ j < raw.data.length + 1,
      (jsonDecode ((raw.data.drop i).take j)).isNone) :
    parseStructuredResponse raw c.expectedKey
      = .obj [(c.expectedKey, c.defaultValue)] := by
  have hclean : cleanFences raw.data <:+: raw.data := infix_of_cleanFences raw.data
  have h1 : jsonDecode (cleanFences raw.data) = none :=
    jsonDecode_eq_none_of_infix h hclean
  simp only [parseStructuredResponse]
  rw [h1]
  cases hx : extractBraces (cleanFences raw.data) with
  | none => cases c <;> rfl
  | some sub =>
    have h2 : jsonDecode sub = none :=
      jsonDecode_eq_none_of_infix h ((infix_of_extractBraces hx).trans hclean)
    dsimp only
    rw [h2]
    cases c <;> rfl

/-- Witness for C7 at the concrete non-JSON text `"abc"` and the `patterns`
category. -/
theorem parse_default_on_undecodable_text_witness :
    (∀ i < "abc".data.length + 1, ∀ j < "abc".data.length + 1,
      (jsonDecode (("abc".data.drop i).take j)).isNone)
    ∧ parseStructuredResponse "abc" AnalysisCategory.patterns.expectedKey
      = .obj [(AnalysisCategory.patterns.expectedKey,
               AnalysisCategory.patterns.defaultValue)] :=
  ⟨by decide, parse_default_on_undecodable_text .patterns "abc" (by decide)⟩

/-- Modelled from the spec (claim C6): depth-counting scan that collects the
first top-level brace-delimited block, starting at an opening brace. -/
def scanBracketBlock : List Char → Nat → List Char → Option (List Char)
  | [], _, _ => none
  | c :: rest, depth, acc =>
    if c == lbrace then scanBracketBlock rest (depth + 1) (c :: acc)
    else if c == rbrace then
      if depth ≤ 1 then some (c :: acc).reverse
      else scanBracketBlock rest (depth - 1) (c :: acc)
    else scanBracketBlock rest depth (c :: acc)

/-- Modelled from the spec (claim C6): "locate the first top-level
brace-delimited block by bracket matching". -/
def bracketMatchExtract (s : List Char) : Option (List Char) :=
  match s.dropWhile (fun c => !(c == lbrace)) with
  | [] => none
  | c :: rest => scanBracketBlock (c :: rest) 0 []

/-- Modelled from the spec (claim C6): "strip leading/trailing code-fence
markers" — the fence marker tokens themselves are removed, rather than a
character set. -/
def stripFenceMarkersSpec (s : List Char) : List Char :=
  let t := pyStripWs s
  let t1 :=
    if fenceJsonChars.isPrefixOf t then t.drop fenceJsonChars.length
    else if fenceChars.isPrefixOf t then t.drop fenceChars.length
    else t
  let t2 := pyStripWs t1
  let t3 :=
    if fenceChars.reverse.isPrefixOf t2.reverse then t2.take (t2.length - fenceChars.length)
    else t2
  pyStripWs t3

/-- Modelled from the spec (claim C6): the claimed parse order — strip fence
markers, strict decode of the full text, bracket-matched first top-level block
decode, category default.  The expected-key validation is shared with the
code-side definition so that any disagreement is due to the claimed steps. -/
def parseSpecC6 (raw : String) (k : String) : Json :=
  let s := stripFenceMarkersSpec raw.data
  match jsonDecode s with
  | some v => applyExpectedKey v k
  | none =>
    match bracketMatchExtract s with
    | some sub =>
      match jsonDecode sub with
      | some v => applyExpectedKey v k
      | none => parseFailureDefault k
    | none => parseFailureDefault k

/-- Keys of a JSON object, used to tell two parse results apart. -/
def objKeys : Json → List String
  | .obj fields => fields.map (·.1)
  | _ => []

/-- Concrete raw response on which the source's greedy-regex recovery and the
claimed bracket-matching recovery disagree: two top-level JSON objects in one
text. -/
def c6RawText : String := "x \x7b\"a\": 1\x7d y \x7b\"b\": 2\x7d z"

/-- C6 counterexample: on a text holding two top-level JSON objects, the
source's recovery greedily spans from the first left brace to the last right
brace, fails to decode, and returns the default — whereas the claimed
bracket-matching parse decodes the first block and injects the expected key.
The claim's step 3 is therefore false of the code. -/
theorem parse_order_claim_counterexample :
    parseStructuredResponse c6RawText "key_relationships"
      = .obj [("key_relationships", .arr [])]
    ∧ parseSpecC6 c6RawText "key_relationships"
      = .obj [("a", .num 1), ("key_relationships", .arr [])]
    ∧ parseStructuredResponse c6RawText "key_relationships"
      ≠ parseSpecC6 c6RawText "key_relationships" :=
  ⟨rfl, rfl, fun h => absurd (congrArg objKeys h) (by decide)⟩

/-- Modelled from the amended claim C6: the same staged "stop at first
success" algorithm, with the recovery step as the source actually implements
it — the greedy first-brace-to-last-brace substring — and fence cleaning by
Python character-set strip. -/
def parseSpecC6Amended (raw : String) (k : String) : Json :=
  let s := cleanFences raw.data
  match [jsonDecode s, (extractBraces s).bind jsonDecode].findSome? id with
  | some v => applyExpectedKey v k
  | none => parseFailureDefault k

/-- C6 amended: the source's parse stage equals the staged algorithm whose
recovery step is the greedy brace-span decode (first left brace to last right
brace), stopping at the first stage that succeeds and falling back to the
category default. -/
theorem parse_order_amended (raw : String) (k : String) :
    parseStructuredResponse raw k = parseSpecC6Amended raw k := by
  simp only [parseStructuredResponse, parseSpecC6Amended, List.findSome?, id]
  cases jsonDecode (cleanFences raw.data) with
  | some v => rfl
  | none =>
    dsimp only
    cases hx : extractBraces (cleanFences raw.data) with
    | none => rfl
    | some sub =>
      dsimp only [Option.bind]
      cases jsonDecode sub with
      | some v => rfl
      | none => rfl

/-- Gmail connector oracle (source `analyze_recent_emails` lines 66-83):
whether `test_connection` succeeds, and the `get_recent_emails` outcome — a
list of email dicts, or a raised exception. -/
structure GmailEnv where
  test_connection : Bool
  recent_emails : Except String (List Json)

/-- Error dictionary returned by the failure paths of `analyze_recent_emails`
(source lines 55-79 and 135-143). -/
def errorAnalysisResult (msg : String) : Json :=
  .obj [("status", .str "error"), ("message", .str msg),
        ("key_relationships", .arr []), ("active_projects", .arr []),
        ("communication_patterns", .obj []), ("action_items", .arr []),
        ("important_information", .arr [])]

/-- Python attribute call `v.get(k, dflt)`: succeeds on dicts; on any other
value it raises `AttributeError`, modelled as the error case. -/
def pyGetAttr (v : Json) (k : String) (dflt : Json) : Except String Json :=
  match v with
  | .obj fields => .ok (dictGetD fields k dflt)
  | _ => .error "AttributeError: get"

/-- Default used by each `combined_results` extraction
(source lines 108-128): `[]` for every category except
`communication_patterns`, which uses an empty dict. -/
def categoryGetDefault : AnalysisCategory → Json
  | .patterns => .obj []
  | _ => .arr []

/-- Embedding of `EmailIntelligence.analyze_recent_emails`
(source `email_intelligence.py:33-143`).  The Gmail fetch and the five LLM
completions are oracles; prompt construction (lines 106-127) only shapes the
oracle's input and is abstracted by indexing the LLM oracle with the category.
The signature of the Python function is
`(self, user_email, access_token=None, days_back=30, previous_insights=None)`
— it has no `structured_knowledge` parameter (see
`analyzeRecentEmailsParams`). -/
def analyze_recent_emails (env : GmailEnv)
    (llm : AnalysisCategory → Except String String)
    (access_token : Option String) : Json :=
  if (access_token.getD "") == "" then
    errorAnalysisResult "No access token provided for Gmail API"
  else if !env.test_connection then
    errorAnalysisResult "Failed to connect to Gmail API"
  else
    match env.recent_emails with
    | .error e => errorAnalysisResult ("Error analyzing emails: " ++ e)
    | .ok _emails =>
      let step := fun (c : AnalysisCategory) =>
        pyGetAttr (getStructuredResponse (llm c) c.expectedKey) c.expectedKey
          (categoryGetDefault c)
      match (do
        let rels ← step .relationships
        let projs ← step .projects
        let pats ← step .patterns
        let acts ← step .actions
        let infos ← step .info
        pure (Json.obj
          [("status", .str "success"),
           ("message", .str "Analysis completed successfully"),
           ("key_relationships", rels), ("active_projects", projs),
           ("communication_patterns", pats), ("action_items", acts),
           ("important_information", infos)]) : Except String Json) with
      | .ok res => res
      | .error e => errorAnalysisResult ("Error analyzing emails: " ++ e)

/-- Formal parameter names (excluding `self`) of
`EmailIntelligence.analyze_recent_emails` (source `email_intelligence.py:33`). -/
def analyzeRecentEmailsParams : List String :=
  ["user_email", "access_token", "days_back", "previous_insights"]

/-- Python keyword-argument binding: a call raises `TypeError` unless every
keyword name is a formal parameter of the callee. -/
def keywordsBind (params : List String) (kwargs : List String) : Bool :=
  kwargs.all params.contains

/-- The `UserIntelligence` SQLAlchemy model
(source `insights_storage.py:12-38`), restricted to the columns the sync
pipeline touches. -/
structure UserIntelligence where
  user_email : String
  general_business_knowledge : List (String × Json) := []
  contacts_knowledge : List (String × Json) := []
  tactical_notifications : List Json := []
  last_email_analysis : List (String × Json) := []
  email_insights_cache : List (String × Json) := []

/-- The `EmailSyncStatus` SQLAlchemy model
(source `insights_storage.py:41-58`). -/
structure EmailSyncStatus where
  id : Int := 0
  user_email : String
  sync_type : String
  status : String
  progress : Int := 0
  emails_processed : Int := 0
  insights_generated : List (String × Json) := []
  error_message : Option String := none
  completed_at : Option String := none

/-- The `ContactIntelligence` SQLAlchemy model
(source `insights_storage.py:61-86`), together with the extra instance
attributes that `_update_contact_intelligence` assigns.  The fields below the
mapped columns (`name`, `role`, `importance`, `recent_interactions`,
`last_updated`) are not columns of the model: Python happily sets them on the
instance, but SQLAlchemy never persists them. -/
structure ContactIntelligence where
  user_email : String
  contact_email : String
  contact_name : Option String := none
  relationship_strength : Option Json := none
  interaction_frequency : Option Json := none
  communication_style : Option Json := none
  topics_discussed : Option Json := none
  first_interaction : Option String := none
  last_interaction : Option String := none
  total_interactions : Int := 0
  relationship_summary : Option String := none
  action_items : List Json := []
  updated_at : Option String := none
  name : Option Json := none
  role : Option Json := none
  importance : Option Json := none
  recent_interactions : Option Json := none
  last_updated : Option String := none

/-- Updates the first list element satisfying the predicate (SQLAlchemy
`.filter_by(...).first()` followed by attribute assignment). -/
def updateFirst (p : α → Bool) (f : α → α) : List α → List α
  | [] => []
  | x :: xs => if p x then f x :: xs else x :: updateFirst p f xs

/-- Email identifier of a relationship item,
`relationship.get('email', 'unknown')`.  Email identifiers are modelled as
JSON strings; a non-string payload is outside the model (the claims quantify
over items that carry an email identifier). -/
def getEmailKey (rel : List (String × Json)) : String :=
  match dictGet rel "email" with
  | some (.str s) => s
  | _ => "unknown"

/-- Row-match predicate for
`filter_by(user_email=..., contact_email=...)`. -/
def contactMatches (user_email contact_email : String) (c : ContactIntelligence) : Bool :=
  c.user_email == user_email && c.contact_email == contact_email

/-- Embedding of `IntelligenceService._update_contact_intelligence`
(source `intelligence_service.py:335-359`): returns early when the item
carries no email identifier; otherwise creates the row when absent (with
column defaults) and assigns `name`, `role`, `importance`,
`recent_interactions` and `last_updated` on the first matching row — none of
which are mapped columns except that `last_updated` also is not; the mapped
counters (`total_interactions`), `action_items` and `last_interaction` are
never touched. -/
def update_contact_intelligence (contacts : List ContactIntelligence)
    (user_email : String) (rel : List (String × Json)) (now : String) :
    List ContactIntelligence :=
  let contact_email := getEmailKey rel
  if contact_email == "unknown" then contacts
  else
    let base :=
      if contacts.any (contactMatches user_email contact_email) then contacts
      else contacts ++ [{ user_email := user_email, contact_email := contact_email }]
    updateFirst (contactMatches user_email contact_email)
      (fun c =>
        { c with
          name := dictGet rel "name"
          role := dictGet rel "role"
          importance := dictGet rel "importance"
          recent_interactions := dictGet rel "recent_interactions"
          last_updated := some now })
      base

/-- Iteration over a JSON value expected to be a list (`for x in v:`); the
analyzer produces lists for every iterated key, so other shapes are out of
the model. -/
def pyIterList : Json → List Json
  | .arr l => l
  | _ => []

/-- Entry written into `contacts_knowledge` for one relationship item
(source `intelligence_service.py:150-156`). -/
def contactsKnowledgeEntry (rel : List (String × Json)) (now : String) : Json :=
  .obj [("name", dictGetD rel "name" .null),
        ("role", dictGetD rel "role" .null),
        ("importance", dictGetD rel "importance" .null),
        ("recent_interactions", dictGetD rel "recent_interactions" .null),
        ("last_updated", .str now)]

/-- Name key of a project item, `project.get('name', 'Unknown Project')`
(source line 169); names are modelled as JSON strings. -/
def getProjectName (project : List (String × Json)) : String :=
  match dictGet project "name" with
  | some (.str s) => s
  | _ => "Unknown Project"

/-- Entry written into `general_business_knowledge` for one project item
(source `intelligence_service.py:170-176`). -/
def businessKnowledgeEntry (project : List (String × Json)) (now : String) : Json :=
  .obj [("description", dictGetD project "description" .null),
        ("status", dictGetD project "status" .null),
        ("priority", dictGetD project "priority" .null),
        ("stakeholders", dictGetD project "key_stakeholders" (.arr [])),
        ("last_updated", .str now)]

/-- Tactical notification built from one action item
(source `intelligence_service.py:186-193`): the stored status is the literal
string `pending`. -/
def tacticalItemEntry (action : List (String × Json)) (now : String) : Json :=
  .obj [("description", dictGetD action "description" .null),
        ("deadline", dictGetD action "deadline" .null),
        ("priority", dictGetD action "priority" (.str "Medium")),
        ("context", dictGetD action "context" .null),
        ("created_at", .str now),
        ("status", .str "pending")]

/-- Merge guard (source `intelligence_service.py:144`):
`insights.get('status') == 'success' or insights.get('key_relationships')`. -/
def mergeGuard (insights : List (String × Json)) : Bool :=
  (match dictGet insights "status" with
   | some (.str s) => s == "success"
   | _ => false)
  || pyTruthy (dictGetD insights "key_relationships" .null)

/-- Length of a list payload, `len(insights.get(k, []))`
(source lines 221 and 224-229; the guard `if insights.get(k) else 0` agrees
with the length on lists). -/
def insightLen (insights : List (String × Json)) (k : String) : Int :=
  (pyIterList (dictGetD insights k (.arr []))).length

/-- The `insights_generated` summary dict
(source `intelligence_service.py:224-229`). -/
def insightCounts (insights : List (String × Json)) : List (String × Json) :=
  [("relationships", .num (insightLen insights "key_relationships")),
   ("projects", .num (insightLen insights "active_projects")),
   ("action_items", .num (insightLen insights "action_items")),
   ("important_info", .num (insightLen insights "important_information"))]

/-- Per-user database state touched by one sync run: the
`UserIntelligence` row, the `EmailSyncStatus` row added by this run, and the
user's `ContactIntelligence` rows. -/
structure PipeState where
  user_intel : Option UserIntelligence := none
  sync_job : Option EmailSyncStatus := none
  contacts : List ContactIntelligence := []

/-- SQLAlchemy session model: the durably committed state and the pending
in-session state. -/
structure DBSession where
  committed : PipeState
  pending : PipeState
  commitIdx : Nat := 0

/-- Model of `session.commit()` under a commit oracle indexed by commit order: on
success the pending state becomes durable; on failure the transaction is
rolled back (pending reverts to committed) and the exception propagates.
The model allows the session to be used again after a failed commit; the
source would additionally need an explicit `rollback()` first, which it
omits — that detail does not affect any verified property. -/
def commitStep (okf : Nat → Bool) (s : DBSession) : Except DBSession DBSession :=
  if okf s.commitIdx then
    .ok { committed := s.pending, pending := s.pending, commitIdx := s.commitIdx + 1 }
  else
    .error { committed := s.committed, pending := s.committed, commitIdx := s.commitIdx + 1 }

/-- Result dictionary of the successful merge
(source `intelligence_service.py:235-239`). -/
def mergeSuccessResult (jobId : Int) (insights : List (String × Json)) : Json :=
  .obj [("status", .str "success"), ("sync_id", .num jobId),
        ("insights_summary", .obj (insightCounts insights))]

/-- String payload of `insights.get('message', dflt)` when reported through
`error_message` and the error result. -/
def getMessageD (insights : List (String × Json)) (dflt : String) : String :=
  match dictGet insights "message" with
  | some (.str m) => m
  | _ => dflt

/-- Merge section of `process_and_store_email_insights`
(source `intelligence_service.py:144-250`).  The section is modelled as its
own definition because in the source it is reachable only through the
analyzer invocation (see `process_and_store_email_insights` below).  Commits
happen mid-merge at lines 163 (after the contacts merge, progress 50) and 180
(after the business-knowledge merge, progress 70), and finally at line 232;
a commit failure propagates with the session state.  The metadata keys
`generated_at`/`days_analyzed` are set on the same dict object that was
assigned to `last_email_analysis` and `email_insights_cache` (lines 208-216),
so the stored copies include them. -/
def mergeEmailInsights (okf : Nat → Bool) (sess : DBSession) (user_email : String)
    (insights : List (String × Json)) (now : String) (daysAnalyzed : Int) :
    Except (String × DBSession) (Json × DBSession) :=
  let ui := sess.pending.user_intel.getD { user_email := user_email }
  let job := (sess.pending.sync_job.getD
    { user_email := user_email, sync_type := "full", status := "processing" })
  if mergeGuard insights then
    -- 1. contacts knowledge + ContactIntelligence rows
    let step1 := (pyIterList (dictGetD insights "key_relationships" (.arr []))).foldl
      (fun (acc : List (String × Json) × List ContactIntelligence) r =>
        match r with
        | .obj rel =>
          (dictSet acc.1 (getEmailKey rel) (contactsKnowledgeEntry rel now),
           update_contact_intelligence acc.2 user_email rel now)
        | _ => acc)
      (ui.contacts_knowledge, sess.pending.contacts)
    let ui1 := { ui with contacts_knowledge := step1.1 }
    let job1 := { job with progress := 50 }
    let sess1 := { sess with pending :=
      { user_intel := some ui1, sync_job := some job1, contacts := step1.2 } }
    match commitStep okf sess1 with
    | .error s => .error ("PersistenceFailure", s)
    | .ok sess2 =>
      -- 2. general business knowledge
      let bk := (pyIterList (dictGetD insights "active_projects" (.arr []))).foldl
        (fun acc p =>
          match p with
          | .obj project => dictSet acc (getProjectName project) (businessKnowledgeEntry project now)
          | _ => acc)
        ui1.general_business_knowledge
      let ui2 := { ui1 with general_business_knowledge := bk }
      let job2 := { job1 with progress := 70 }
      let sess3 := { sess2 with pending :=
        { sess2.pending with user_intel := some ui2, sync_job := some job2 } }
      match commitStep okf sess3 with
      | .error s => .error ("PersistenceFailure", s)
      | .ok sess4 =>
        -- 3. tactical notifications (replaced wholesale)
        let tactical := (pyIterList (dictGetD insights "action_items" (.arr []))).foldl
          (fun acc a =>
            match a with
            | .obj action => acc ++ [tacticalItemEntry action now]
            | _ => acc)
          []
        -- 4. full-analysis snapshot and metadata (shared dict object)
        let insights2 := dictSet (dictSet insights "generated_at" (.str now))
          "days_analyzed" (.num daysAnalyzed)
        let ui3 := { ui2 with
          tactical_notifications := tactical
          last_email_analysis := insights2
          email_insights_cache := insights2 }
        let job3 := { job2 with
          status := "completed"
          progress := 100
          emails_processed := insightLen insights "key_relationships"
          insights_generated := insightCounts insights
          completed_at := some now }
        let sess5 := { sess4 with pending :=
          { sess4.pending with user_intel := some ui3, sync_job := some job3 } }
        match commitStep okf sess5 with
        | .error s => .error ("PersistenceFailure", s)
        | .ok sess6 => .ok (mergeSuccessResult job3.id insights, sess6)
  else
    let jobF := { job with
      status := "failed"
      error_message := some (getMessageD insights "Unknown error")
      completed_at := some now }
    let sessF := { sess with pending := { sess.pending with sync_job := some jobF } }
    match commitStep okf sessF with
    | .error s => .error ("PersistenceFailure", s)
    | .ok sessF2 =>
      .ok (.obj [("status", .str "error"),
                 ("message", .str (getMessageD insights "Failed to analyze emails"))], sessF2)

/-- Sync-type and lookback-window decision
(source `intelligence_service.py:63-77` and `101-104`): incremental only when
a `UserIntelligence` row exists, its `email_insights_cache` is truthy,
`force_full_sync` is not set and the cache has a `generated_at` key; the
incremental window is `min(days_back, elapsed_whole_days + 1)`.
`elapsedWholeDays` abstracts `(datetime.utcnow() - last_sync).days`, the
floor of whole days since the stored `generated_at` (a well-formed ISO string,
since the source itself wrote it). -/
def computeSyncPlan (user_intel : Option UserIntelligence) (force_full_sync : Bool)
    (days_back : Int) (elapsedWholeDays : Int) : String × Int :=
  match user_intel with
  | some ui =>
    if pyTruthy (.obj ui.email_insights_cache) && !force_full_sync then
      if dictHas ui.email_insights_cache "generated_at" then
        ("incremental", min days_back (elapsedWholeDays + 1))
      else ("full", days_back)
    else ("full", days_back)
  | none => ("full", days_back)

/-- The analyzer invocation as a Python call with keyword arguments
(source `intelligence_service.py:124-130` and `136-141`): the call only
proceeds when every keyword name binds to a formal parameter of
`analyze_recent_emails`; otherwise Python raises `TypeError` before the
callee body runs. -/
def callAnalyzeWithKeywords (env : GmailEnv)
    (llm : AnalysisCategory → Except String String)
    (access_token : Option String) (kwargs : List String) : Except String Json :=
  if keywordsBind analyzeRecentEmailsParams kwargs then
    .ok (analyze_recent_emails env llm access_token)
  else
    .error "TypeError: analyze_recent_emails() got an unexpected keyword argument"

/-- A sync job marked failed by the exception handler
(source `intelligence_service.py:254-258`). -/
def failJob (j : EmailSyncStatus) (msg : String) (now : String) : EmailSyncStatus :=
  { j with status := "failed", error_message := some msg, completed_at := some now }

/-- Job-level exception handler of `process_and_store_email_insights`
(source `intelligence_service.py:252-263`): marks the sync job failed with
the captured message, commits, and returns the error dictionary.  The job
object in scope is modelled by the session's current value, falling back to
the locally created row; should the handler's own commit fail as well the
exception escapes to the caller. -/
def handleSyncException (okf : Nat → Bool) (sess : DBSession)
    (fallbackJob : EmailSyncStatus) (msg : String) (now : String) :
    Except (String × PipeState) (Json × PipeState) :=
  let jobLocal := sess.pending.sync_job.getD fallbackJob
  let sessH := { sess with pending :=
    { sess.pending with sync_job := some (failJob jobLocal msg now) } }
  match commitStep okf sessH with
  | .ok s => .ok (.obj [("status", .str "error"), ("message", .str msg)], s.committed)
  | .error s => .error (msg, s.committed)

/-- Embedding of `IntelligenceService.process_and_store_email_insights`
(source `intelligence_service.py:50-265`): decides the sync plan, records the
`processing` job (commit), bumps progress to 30 (commit), invokes the
analyzer — a call that passes a `structured_knowledge` keyword argument in
both branches — and, were the call to bind, would run the merge section.
Returns the result dictionary together with the final committed state, or
propagates an exception that escaped the handler. -/
def process_and_store_email_insights (okf : Nat → Bool) (db : PipeState)
    (user_email : String) (access_token : Option String) (days_back : Int)
    (force_full_sync : Bool) (elapsedWholeDays : Int) (env : GmailEnv)
    (llm : AnalysisCategory → Except String String) (now : String) :
    Except (String × PipeState) (Json × PipeState) :=
  let plan := computeSyncPlan db.user_intel force_full_sync days_back elapsedWholeDays
  let job0 : EmailSyncStatus :=
    { user_email := user_email, sync_type := plan.1, status := "processing", progress := 10 }
  let sess0 : DBSession := { committed := db, pending := { db with sync_job := some job0 } }
  match commitStep okf sess0 with
  | .error s => handleSyncException okf s job0 "PersistenceFailure" now
  | .ok sessA =>
    let ui := sessA.pending.user_intel.getD { user_email := user_email }
    let job1 := { job0 with progress := 30 }
    let sessB := { sessA with pending :=
      { sessA.pending with user_intel := some ui, sync_job := some job1 } }
    match commitStep okf sessB with
    | .error s => handleSyncException okf s job1 "PersistenceFailure" now
    | .ok sessC =>
      let kwargs :=
        if plan.1 == "incremental" then ["previous_insights", "structured_knowledge"]
        else ["structured_knowledge"]
      match callAnalyzeWithKeywords env llm access_token kwargs with
      | .error msg => handleSyncException okf sessC job1 msg now
      | .ok insightsVal =>
        let insights := match insightsVal with | .obj f => f | _ => []
        match mergeEmailInsights okf sessC user_email insights now plan.2 with
        | .ok (res, s) => .ok (res, s.committed)
        | .error (msg, s) => handleSyncException okf s job1 msg now

/-- The process-wide `sync_status` dictionary of `backend/main.py`
(source lines 31-37 for the initial value); keys that later code may add are
optional. -/
structure GlobalSyncStatus where
  is_syncing : Bool := false
  progress : Int := 0
  user_email : String := ""
  sync_type : String := ""
  last_sync : Option String := none
  start_time : Option String := none
  completed_at : Option String := none
  email_insights : Option Json := none
  error : Option String := none

/-- The per-user Flask session values the sync routes touch. -/
structure WebSession where
  user_email : Option String := none
  google_oauth_token : Option String := none
  email_days_back : Option Int := none
  email_insights : Option Json := none
  last_email_sync : Option String := none

/-- Observable outcome of the `/sync-emails` route: redirect to login, or a
background sync thread started for the given user and parameters. -/
inductive SyncEmailsOutcome where
  | redirectLogin
  | startedBackgroundSync (user_email : String) (days_back : Int) (force_full_sync : Bool)
deriving DecidableEq

/-- The `/sync-emails` route (source `main.py:283-345`): after the
authentication check it unconditionally replaces the process-wide
`sync_status` dictionary with a fresh one and starts a background sync
thread — there is no check for an in-flight job. -/
def sync_emails (g : GlobalSyncStatus) (sess : WebSession) (forceArg : Bool)
    (now : String) : GlobalSyncStatus × SyncEmailsOutcome :=
  match sess.user_email, sess.google_oauth_token with
  | some u, some _tok =>
    ({ user_email := u, is_syncing := true, progress := 0,
       sync_type := "Email Intelligence", start_time := some now },
     .startedBackgroundSync u (sess.email_days_back.getD 30) forceArg)
  | _, _ => (g, .redirectLogin)

/-- Completion update performed by the background `run_sync` thread
(source `main.py:333-336`). -/
def run_sync_complete (g : GlobalSyncStatus) (result : Json) (now : String) :
    GlobalSyncStatus :=
  { g with is_syncing := false, progress := 100, completed_at := some now,
           email_insights := some result }

/-- JSON body returned by `/api/sync-status`. -/
structure SyncStatusJson where
  is_syncing : Bool
  progress : Int
  sync_type : String
  redirect : Option String
deriving DecidableEq

/-- HTTP-level outcome of `/api/sync-status`. -/
inductive ApiSyncStatusHttp where
  | unauthorized
  | okJson (body : SyncStatusJson)
deriving DecidableEq

/-- The `/api/sync-status` route (source `main.py:367-397`): when the tracked
user matches the session user and the tracked sync is complete
(`not is_syncing and progress == 100`), any present `email_insights` are
copied into the session; the tracker dictionary itself is returned unchanged
— it is never cleared or reset. -/
def api_sync_status (g : GlobalSyncStatus) (sess : WebSession) (now : String) :
    ApiSyncStatusHttp × GlobalSyncStatus × WebSession :=
  match sess.user_email with
  | none => (.unauthorized, g, sess)
  | some u =>
    if g.user_email == u then
      let complete := !g.is_syncing && g.progress == 100
      let sess2 :=
        if complete then
          match g.email_insights with
          | some ins =>
            { sess with email_insights := some ins,
                        last_email_sync := some (g.last_sync.getD now) }
          | none => sess
        else sess
      (.okJson { is_syncing := g.is_syncing, progress := g.progress,
                 sync_type := g.sync_type,
                 redirect := if complete then some "/email-insights" else none },
       g, sess2)
    else
      (.okJson { is_syncing := false, progress := 0, sync_type := "",
                 redirect := some "/email-insights" }, g, sess)

/-- Guard of the snapshot-handoff branch of `/api/sync-status`
(source `main.py:372-377`): the poll copies the finalized insights into the
session exactly when this holds. -/
def performsHandoff (g : GlobalSyncStatus) (sess : WebSession) : Bool :=
  (match sess.user_email with
   | some u => g.user_email == u
   | none => false)
  && !g.is_syncing && g.progress == 100 && g.email_insights.isSome

/-- Status field of a result dictionary. -/
def resultStatus (j : Json) : Json :=
  match j with
  | .obj f => dictGetD f "status" .null
  | _ => .null

/-- C5: whenever a prior snapshot with a `generated_at` timestamp exists and a
full sync is not forced, the orchestrator chooses an incremental sync whose
lookback window is `min(days_back, whole days elapsed + 1)`, which never
exceeds the configured `days_back`. -/
theorem incremental_window_bounded (ui : UserIntelligence) (force : Bool)
    (days_back elapsed : Int)
    (hcache : ui.email_insights_cache ≠ [])
    (hgen : dictHas ui.email_insights_cache "generated_at" = true)
    (hforce : force = false) :
    computeSyncPlan (some ui) force days_back elapsed
      = ("incremental", min days_back (elapsed + 1))
    ∧ (computeSyncPlan (some ui) force days_back elapsed).2 ≤ days_back := by
  subst hforce
  have ht : pyTruthy (.obj ui.email_insights_cache) = true := by
    simp [pyTruthy, List.isEmpty_iff, hcache]
  refine ⟨?_, ?_⟩ <;> simp [computeSyncPlan, ht, hgen]

/-- Concrete prior snapshot used by the C5 witness. -/
def c5Snapshot : UserIntelligence :=
  { user_email := "u@x.com",
    email_insights_cache := [("generated_at", .str "2026-01-01T00:00:00")] }

/-- Witness for C5 at a concrete snapshot. -/
theorem incremental_window_bounded_witness :
    c5Snapshot.email_insights_cache ≠ []
    ∧ dictHas c5Snapshot.email_insights_cache "generated_at" = true
    ∧ (computeSyncPlan (some c5Snapshot) false 30 4
        = ("incremental", min 30 (4 + 1))
       ∧ (computeSyncPlan (some c5Snapshot) false 30 4).2 ≤ 30) :=
  ⟨List.cons_ne_nil _ _, rfl,
   incremental_window_bounded c5Snapshot false 30 4 (List.cons_ne_nil _ _) rfl rfl⟩

/-- Tracker state of a user whose sync is still running, used to refute the
claim that a second request is rejected. -/
def c3BusyGlobal : GlobalSyncStatus :=
  { is_syncing := true, progress := 50, user_email := "u@x.com",
    sync_type := "Email Intelligence" }

/-- Authenticated session of the same user. -/
def c3Session : WebSession :=
  { user_email := some "u@x.com", google_oauth_token := some "tok" }

/-- C3 counterexample: with the tracker showing the same user's sync still
`processing`, a new `/sync-emails` request is not rejected or queued — the
route starts another background sync run for that user. -/
theorem concurrent_sync_not_rejected :
    c3BusyGlobal.is_syncing = true
    ∧ c3BusyGlobal.user_email = "u@x.com"
    ∧ c3Session.user_email = some "u@x.com"
    ∧ (sync_emails c3BusyGlobal c3Session false "t1").2
        = .startedBackgroundSync "u@x.com" 30 false :=
  ⟨rfl, rfl, rfl, rfl⟩

/-- C3 amended: an authenticated `/sync-emails` request always overwrites the
process-wide tracker with a fresh `is_syncing` entry and starts a background
sync, regardless of any in-flight job recorded there (for the same user or
any other); the route never rejects or queues. -/
theorem sync_request_always_starts (g : GlobalSyncStatus) (sess : WebSession)
    (force : Bool) (now : String) (u tok : String)
    (hu : sess.user_email = some u) (ht : sess.google_oauth_token = some tok) :
    sync_emails g sess force now
      = ({ user_email := u, is_syncing := true, progress := 0,
           sync_type := "Email Intelligence", start_time := some now },
         .startedBackgroundSync u (sess.email_days_back.getD 30) force) := by
  simp [sync_emails, hu, ht]

/-- Witness for the amended C3 on a busy tracker. -/
theorem sync_request_always_starts_witness :
    c3Session.user_email = some "u@x.com"
    ∧ c3Session.google_oauth_token = some "tok"
    ∧ sync_emails c3BusyGlobal c3Session true "t2"
      = ({ user_email := "u@x.com", is_syncing := true, progress := 0,
           sync_type := "Email Intelligence", start_time := some "t2" },
         .startedBackgroundSync "u@x.com" 30 true) :=
  ⟨rfl, rfl, sync_request_always_starts c3BusyGlobal c3Session true "t2"
    "u@x.com" "tok" rfl rfl⟩

/-- Tracker state after a completed sync, holding finalized insights. -/
def c10Global : GlobalSyncStatus :=
  { is_syncing := false, progress := 100, user_email := "u@x.com",
    sync_type := "Email Intelligence",
    email_insights := some (.obj [("status", .str "success")]) }

/-- Authenticated session of the same user. -/
def c10Session : WebSession :=
  { user_email := some "u@x.com", google_oauth_token := some "tok" }

/-- C10 counterexample: the first poll observing the completed state performs
the handoff, but the tracker entry is returned unchanged — not cleared or
reset — and the very next poll by the same user performs the handoff again. -/
theorem handoff_repeats_on_next_poll :
    performsHandoff c10Global c10Session = true
    ∧ (api_sync_status c10Global c10Session "t1").2.1 = c10Global
    ∧ performsHandoff (api_sync_status c10Global c10Session "t1").2.1
        (api_sync_status c10Global c10Session "t1").2.2 = true :=
  ⟨rfl, rfl, rfl⟩

/-- C10 amended: every poll that observes the completed state copies the
finalized insights into the caller's session; the tracker entry is never
cleared, so the handoff condition still holds for the following poll. -/
theorem handoff_on_every_completed_poll (g : GlobalSyncStatus) (sess : WebSession)
    (now u : String) (ins : Json)
    (hu : sess.user_email = some u) (hmatch : g.user_email = u)
    (hsync : g.is_syncing = false) (hprog : g.progress = 100)
    (hins : g.email_insights = some ins) :
    (api_sync_status g sess now).2.1 = g
    ∧ (api_sync_status g sess now).2.2.email_insights = some ins
    ∧ performsHandoff (api_sync_status g sess now).2.1
        (api_sync_status g sess now).2.2 = true := by
  simp [api_sync_status, performsHandoff, hu, hmatch, hsync, hprog, hins]

/-- Witness for the amended C10. -/
theorem handoff_on_every_completed_poll_witness :
    c10Session.user_email = some "u@x.com"
    ∧ c10Global.email_insights = some (.obj [("status", .str "success")])
    ∧ ((api_sync_status c10Global c10Session "t3").2.1 = c10Global
       ∧ (api_sync_status c10Global c10Session "t3").2.2.email_insights
           = some (.obj [("status", .str "success")])
       ∧ performsHandoff (api_sync_status c10Global c10Session "t3").2.1
           (api_sync_status c10Global c10Session "t3").2.2 = true) :=
  ⟨rfl, rfl, handoff_on_every_completed_poll c10Global c10Session "t3" "u@x.com"
    (.obj [("status", .str "success")]) rfl rfl rfl rfl rfl⟩

/-- Keyword lists passed by the two branches of the orchestrator's analyzer
call: neither binds, since `structured_knowledge` is not a formal parameter
of `analyze_recent_emails`. -/
theorem structured_knowledge_never_binds (cond : Bool) :
    keywordsBind analyzeRecentEmailsParams
      (if cond then ["previous_insights", "structured_knowledge"]
       else ["structured_knowledge"]) = false := by
  cases cond <;> decide

/-- C1: for every user and every combination of inputs (access token, days
back, forced full sync), provided the database commits themselves succeed,
`process_and_store_email_insights` returns a result whose status is `error`
and records the sync job as `failed`; it can never return status `success`,
because both analyzer invocations pass a `structured_knowledge` keyword
argument that `analyze_recent_emails` does not accept, raising a `TypeError`
that the job-level handler converts into a failed job. -/
theorem sync_always_fails_with_error (okf : Nat → Bool) (db : PipeState)
    (user_email : String) (access_token : Option String) (days_back : Int)
    (force_full_sync : Bool) (elapsed : Int) (env : GmailEnv)
    (llm : AnalysisCategory → Except String String) (now : String)
    (hok : ∀ n, okf n = true) :
    ∃ res st, process_and_store_email_insights okf db user_email access_token
        days_back force_full_sync elapsed env llm now = .ok (res, st)
      ∧ resultStatus res = .str "error"
      ∧ st.sync_job.map (·.status) = some "failed" := by
  simp only [process_and_store_email_insights, commitStep, hok, if_true,
    callAnalyzeWithKeywords, structured_knowledge_never_binds,
    handleSyncException, failJob]
  exact ⟨_, _, rfl, rfl, rfl⟩

/-- Witness for C1 at concrete inputs. -/
theorem sync_always_fails_with_error_witness :
    (∀ n, (fun (_ : Nat) => true) n = true)
    ∧ ∃ res st, process_and_store_email_insights (fun _ => true) {} "u@x.com"
        (some "tok") 30 false 0
        { test_connection := true, recent_emails := .ok [] }
        (fun _ => .ok "x") "t0" = .ok (res, st)
      ∧ resultStatus res = .str "error"
      ∧ st.sync_job.map (·.status) = some "failed" :=
  ⟨fun _ => rfl,
   sync_always_fails_with_error (fun _ => true) {} "u@x.com" (some "tok") 30
     false 0 { test_connection := true, recent_emails := .ok [] }
     (fun _ => .ok "x") "t0" (fun _ => rfl)⟩

/-- LLM oracle for the C4 scenario: the `patterns` call raises a network
error, every other category returns valid JSON. -/
def c4Llm : AnalysisCategory → Except String String
  | .patterns => .error "network error"
  | .relationships =>
    .ok "\x7b\"key_relationships\": [\x7b\"name\": \"Jane\", \"email\": \"jane@x.com\"\x7d]\x7d"
  | .projects => .ok "\x7b\"active_projects\": []\x7d"
  | .actions => .ok "\x7b\"action_items\": []\x7d"
  | .info => .ok "\x7b\"important_information\": []\x7d"

/-- Gmail oracle for the C4 scenario: connected, no emails. -/
def c4Env : GmailEnv := { test_connection := true, recent_emails := .ok [] }

/-- C4 (code bug): the degrade-and-continue contract does hold inside the
analyzer — with the `patterns` LLM call failing, `analyze_recent_emails`
returns the other four categories intact, `communication_patterns` defaulted
to an empty map, and status `success`.  But the sync job can never finish
`completed`: the orchestrator's invocation of the analyzer raises `TypeError`
(unexpected `structured_knowledge` keyword) before any category runs, so the
job is marked `failed` on this very input. -/
theorem patterns_degrades_but_job_fails :
    analyze_recent_emails c4Env c4Llm (some "tok")
      = .obj [("status", .str "success"),
              ("message", .str "Analysis completed successfully"),
              ("key_relationships",
                .arr [.obj [("name", .str "Jane"), ("email", .str "jane@x.com")]]),
              ("active_projects", .arr []),
              ("communication_patterns", .obj []),
              ("action_items", .arr []),
              ("important_information", .arr [])]
    ∧ ((process_and_store_email_insights (fun _ => true) {} "u@x.com" (some "tok")
          30 false 0 c4Env c4Llm "t0").toOption.map
            (fun p => (resultStatus p.1, p.2.sync_job.map (·.status))))
        = some (.str "error", some "failed") :=
  ⟨rfl, rfl⟩

/-- Updating the first match preserves any projection the update leaves
alone. -/
theorem updateFirst_map_eq (p : α → Bool) (f : α → α) (proj : α → β)
    (l : List α) (hpres : ∀ a, proj (f a) = proj a) :
    (updateFirst p f l).map proj = l.map proj := by
  induction l with
  | nil => rfl
  | cons x xs ih =>
    by_cases hx : p x = true
    · simp [updateFirst, hx, hpres]
    · simp [updateFirst, hx, ih]

/-- Finding the first match after updating it yields the updated element,
provided the update preserves the predicate. -/
theorem find?_updateFirst (p : α → Bool) (f : α → α) (l : List α)
    (hp : ∀ a, p (f a) = p a) :
    (updateFirst p f l).find? p = (l.find? p).map f := by
  induction l with
  | nil => rfl
  | cons x xs ih =>
    by_cases hx : p x = true
    · simp [updateFirst, hx, List.find?_cons, hp]
    · simp [updateFirst, hx, List.find?_cons, ih]

/-- Existing contact record used to refute C9: three interactions already
counted, one stored action item, a known last interaction. -/
def c9Contact : ContactIntelligence :=
  { user_email := "u@x.com", contact_email := "jane@x.com",
    total_interactions := 3,
    action_items := [.str "old item"],
    last_interaction := some "2026-01-01T00:00:00" }

/-- Relationship item carrying an email identifier and a fresh pending
action. -/
def c9Rel : List (String × Json) :=
  [("email", .str "jane@x.com"), ("name", .str "Jane"),
   ("action_needed", .str "send deck")]

/-- C9 counterexample: upserting a relationship for an existing contact does
not increment `total_interactions` (still 3, not 4), does not append to
`action_items` (still the single old item), and does not refresh
`last_interaction`. -/
theorem contact_upsert_claim_counterexample :
    getEmailKey c9Rel = "jane@x.com"
    ∧ (update_contact_intelligence [c9Contact] "u@x.com" c9Rel "t9").map
        (fun c => (c.total_interactions, c.action_items.length, c.last_interaction))
      = [(3, 1, some "2026-01-01T00:00:00")]
    ∧ (3 : Int) ≠ 3 + 1 :=
  ⟨rfl, rfl, by decide⟩

/-- C9 amended: for a relationship item carrying an email identifier, the
merge does upsert the per-(user, contact) record — creating it with column
defaults when absent — but the update only assigns `name`, `role`,
`importance`, `recent_interactions` and `last_updated` (none of them mapped
columns); `total_interactions`, `action_items` and `last_interaction` of
every row are left exactly as they were. -/
theorem contact_upsert_assigns_attributes_only (contacts : List ContactIntelligence)
    (u : String) (rel : List (String × Json)) (now : String)
    (he : getEmailKey rel ≠ "unknown") :
    (update_contact_intelligence contacts u rel now).map
        (fun c => (c.total_interactions, c.action_items, c.last_interaction))
      = (if contacts.any (contactMatches u (getEmailKey rel)) then contacts
         else contacts ++ [{ user_email := u, contact_email := getEmailKey rel }]).map
        (fun c => (c.total_interactions, c.action_items, c.last_interaction))
    ∧ ((update_contact_intelligence contacts u rel now).find?
          (contactMatches u (getEmailKey rel))).map
        (fun c => (c.name, c.role, c.importance, c.recent_interactions, c.last_updated))
      = some (dictGet rel "name", dictGet rel "role", dictGet rel "importance",
              dictGet rel "recent_interactions", some now) := by
  have hbeq : (getEmailKey rel == "unknown") = false := by
    simpa using he
  constructor
  · simp only [update_contact_intelligence, hbeq, Bool.false_eq_true, if_false]
    apply updateFirst_map_eq
    intro a
    rfl
  · simp only [update_contact_intelligence, hbeq, Bool.false_eq_true, if_false]
    rw [find?_updateFirst]
    case hp => intro a; rfl
    have hfresh : contactMatches u (getEmailKey rel)
        { user_email := u, contact_email := getEmailKey rel } = true := by
      simp [contactMatches]
    by_cases hany : contacts.any (contactMatches u (getEmailKey rel)) = true
    · obtain ⟨c, hc⟩ := List.find?_isSome.mpr (by
        obtain ⟨a, ha, hpa⟩ := List.any_eq_true.mp hany
        exact ⟨a, ha, hpa⟩) |> Option.isSome_iff_exists.mp
      simp [hany, hc]
    · have hany2 : contacts.all (fun c => !(contactMatches u (getEmailKey rel) c)) = true := by
        rw [List.all_eq_true]
        intro c hcmem
        rcases hcm : contactMatches u (getEmailKey rel) c with _ | _
        · rfl
        · exact absurd (List.any_eq_true.mpr ⟨c, hcmem, hcm⟩) hany
      have hnone : contacts.find? (contactMatches u (getEmailKey rel)) = none := by
        rw [List.find?_eq_none]
        intro c hcmem
        have := List.all_eq_true.mp hany2 c hcmem
        simpa using this
      simp [hany, List.find?_append, hnone, hfresh]

/-- Witness for the amended C9 at a concrete existing contact. -/
theorem contact_upsert_assigns_attributes_only_witness :
    getEmailKey c9Rel ≠ "unknown"
    ∧ ((update_contact_intelligence [c9Contact] "u@x.com" c9Rel "t9").map
          (fun c => (c.total_interactions, c.action_items, c.last_interaction))
        = (if [c9Contact].any (contactMatches "u@x.com" (getEmailKey c9Rel))
           then [c9Contact]
           else [c9Contact]
             ++ [{ user_email := "u@x.com", contact_email := getEmailKey c9Rel }]).map
          (fun c => (c.total_interactions, c.action_items, c.last_interaction))
       ∧ ((update_contact_intelligence [c9Contact] "u@x.com" c9Rel "t9").find?
            (contactMatches "u@x.com" (getEmailKey c9Rel))).map
          (fun c => (c.name, c.role, c.importance, c.recent_interactions, c.last_updated))
        = some (dictGet c9Rel "name", dictGet c9Rel "role", dictGet c9Rel "importance",
                dictGet c9Rel "recent_interactions", some "t9")) :=
  ⟨by decide,
   contact_upsert_assigns_attributes_only [c9Contact] "u@x.com" c9Rel "t9" (by decide)⟩

/-- Folding step that builds the tactical notification list
(source `intelligence_service.py:183-193`), named for reuse in statements. -/
def tacticalFold (actions : List Json) (now : String) : List Json :=
  actions.foldl
    (fun acc a =>
      match a with
      | .obj action => acc ++ [tacticalItemEntry action now]
      | _ => acc) []

/-- Every tactical notification built by the merge carries status
`pending`. -/
theorem tacticalFold_all_pending (now : String) :
    ∀ (actions : List Json) (acc : List Json),
      (∀ j ∈ acc, resultStatus j = .str "pending") →
      ∀ j ∈ actions.foldl
        (fun acc a =>
          match a with
          | .obj action => acc ++ [tacticalItemEntry action now]
          | _ => acc) acc,
        resultStatus j = .str "pending" := by
  intro actions
  induction actions with
  | nil => intro acc hacc j hj; exact hacc j hj
  | cons x xs ih =>
    intro acc hacc j hj
    refine ih _ ?_ j hj
    intro j2 hj2
    cases x with
    | obj action =>
      rcases List.mem_append.mp hj2 with h | h
      · exact hacc j2 h
      · rcases List.mem_singleton.mp h with rfl
        rfl
    | null => exact hacc j2 hj2
    | bool b => exact hacc j2 hj2
    | num n => exact hacc j2 hj2
    | str s => exact hacc j2 hj2
    | arr l => exact hacc j2 hj2

/-- C8 amended: after every successful merge, `tactical_notifications` equals
exactly the list built from the newly extracted action items — the previous
list is replaced, not appended to — and every stored item's status is the
literal `pending`, regardless of any completed marking by the analyzer. -/
theorem tactical_replaced_all_pending (okf : Nat → Bool) (sess : DBSession)
    (u : String) (insights : List (String × Json)) (now : String) (days : Int)
    (hok : ∀ n, okf n = true) (hguard : mergeGuard insights = true) :
    ∃ res s, mergeEmailInsights okf sess u insights now days = .ok (res, s)
      ∧ s.committed.user_intel.map (·.tactical_notifications)
          = some (tacticalFold (pyIterList (dictGetD insights "action_items" (.arr []))) now)
      ∧ ∀ j ∈ tacticalFold (pyIterList (dictGetD insights "action_items" (.arr []))) now,
          resultStatus j = .str "pending" := by
  simp only [mergeEmailInsights, commitStep, hok, hguard, if_true, tacticalFold]
  refine ⟨_, _, rfl, rfl, ?_⟩
  refine tacticalFold_all_pending now _ [] ?_
  intro j hj
  exact absurd hj (List.not_mem_nil j)

/-- Snapshot holding a previous tactical notification, to exhibit
replacement. -/
def c8Intel : UserIntelligence :=
  { user_email := "u@x.com", tactical_notifications := [.str "old notification"] }

/-- In-flight sync job row at merge time. -/
def c8Job : EmailSyncStatus :=
  { user_email := "u@x.com", sync_type := "full", status := "processing", progress := 30 }

/-- Database state at merge time. -/
def c8State : PipeState :=
  { user_intel := some c8Intel, sync_job := some c8Job, contacts := [] }

/-- Clean session over that state. -/
def c8Session : DBSession := { committed := c8State, pending := c8State }

/-- Analyzer output whose single action item the analyzer marked
`Completed`. -/
def c8Insights : List (String × Json) :=
  [("status", .str "success"),
   ("key_relationships", .arr []),
   ("action_items", .arr [.obj [("description", .str "ship report"),
                                ("status", .str "Completed")]])]

/-- C8 counterexample: the analyzer marked the extracted action item
`Completed`, yet the stored tactical notification carries status `pending` —
the completed marking is not preserved (the replacement itself, old list
dropped, is visible in the stored value). -/
theorem completed_status_not_preserved :
    dictGet c8Insights "action_items"
      = some (.arr [.obj [("description", .str "ship report"),
                          ("status", .str "Completed")]])
    ∧ (match mergeEmailInsights (fun _ => true) c8Session "u@x.com" c8Insights "t8" 30 with
       | .ok (_, s) => s.committed.user_intel.map (·.tactical_notifications)
       | .error _ => none)
      = some [.obj [("description", .str "ship report"), ("deadline", .null),
                    ("priority", .str "Medium"), ("context", .null),
                    ("created_at", .str "t8"), ("status", .str "pending")]]
    ∧ ("pending" : String) ≠ "Completed" :=
  ⟨rfl, rfl, by decide⟩

/-- Witness for the amended C8 at the concrete merge input. -/
theorem tactical_replaced_all_pending_witness :
    (∀ n, (fun (_ : Nat) => true) n = true)
    ∧ mergeGuard c8Insights = true
    ∧ (∃ res s, mergeEmailInsights (fun _ => true) c8Session "u@x.com" c8Insights
          "t8" 30 = .ok (res, s)
        ∧ s.committed.user_intel.map (·.tactical_notifications)
            = some (tacticalFold
                (pyIterList (dictGetD c8Insights "action_items" (.arr []))) "t8")
        ∧ ∀ j ∈ tacticalFold
              (pyIterList (dictGetD c8Insights "action_items" (.arr []))) "t8",
            resultStatus j = .str "pending") :=
  ⟨fun _ => rfl, rfl,
   tactical_replaced_all_pending (fun _ => true) c8Session "u@x.com" c8Insights
     "t8" 30 (fun _ => rfl) rfl⟩

/-- Snapshot before the C2 scenario: no contacts merged yet, a
`generated_at` from the previous sync. -/
def c2Intel : UserIntelligence :=
  { user_email := "u@x.com",
    email_insights_cache := [("generated_at", .str "2026-01-01T00:00:00")] }

/-- In-flight sync job row at merge time. -/
def c2Job : EmailSyncStatus :=
  { user_email := "u@x.com", sync_type := "incremental", status := "processing",
    progress := 30 }

/-- Database state before the merge. -/
def c2State : PipeState :=
  { user_intel := some c2Intel, sync_job := some c2Job, contacts := [] }

/-- Clean session over that state. -/
def c2Session : DBSession := { committed := c2State, pending := c2State }

/-- Commit oracle failing exactly at the second commit of the merge. -/
def c2Okf : Nat → Bool := fun n => !(n == 1)

/-- Analyzer output with one relationship and one project. -/
def c2Insights : List (String × Json) :=
  [("status", .str "success"),
   ("key_relationships", .arr [.obj [("name", .str "Jane"),
                                     ("email", .str "jane@x.com")]]),
   ("active_projects", .arr [.obj [("name", .str "Launch"),
                                   ("status", .str "In Progress")]]),
   ("action_items", .arr [])]

/-- C2 counterexample: the second mid-merge commit fails, the job ends
`failed` — yet the durably stored snapshot now contains the merged contact
entry while `general_business_knowledge` and the cached metadata are still
the pre-sync values: a half-updated snapshot, not a rollback to the state
before the sync. -/
theorem merge_not_single_transaction :
    dictGet c2Intel.contacts_knowledge "jane@x.com" = none
    ∧ (match mergeEmailInsights c2Okf c2Session "u@x.com" c2Insights "t2" 7 with
       | .error (msg, s) =>
         (match handleSyncException c2Okf s c2Job msg "t2" with
          | .ok (res, st) =>
            resultStatus res = .str "error"
            ∧ st.sync_job.map (·.status) = some "failed"
            ∧ st.user_intel.map (fun ui =>
                ((dictGet ui.contacts_knowledge "jane@x.com").isSome,
                 ui.general_business_knowledge,
                 ui.email_insights_cache))
              = some (true, [], [("generated_at", .str "2026-01-01T00:00:00")])
          | .error _ => False)
       | .ok _ => False) :=
  ⟨rfl, rfl, rfl, rfl⟩

/-- C2 amended: the merge is committed in three separate transactions (after
the contacts phase, after the business-knowledge phase, and at
finalization).  When the second commit fails, the earlier commit stays
durable: the stored `contacts_knowledge` already holds the merged value while
`general_business_knowledge`, `tactical_notifications` and the cached
snapshot metadata (`email_insights_cache`, hence `generated_at`) keep their
pre-sync values — the snapshot can be left half-updated. -/
theorem staged_commit_partial_merge (okf : Nat → Bool) (sess : DBSession)
    (u : String) (insights : List (String × Json)) (now : String) (days : Int)
    (hguard : mergeGuard insights = true)
    (hidx : sess.commitIdx = 0)
    (hok0 : okf 0 = true) (hok1 : okf 1 = false) :
    ∃ s, mergeEmailInsights okf sess u insights now days
        = .error ("PersistenceFailure", s)
      ∧ s.committed.user_intel.map (·.contacts_knowledge)
          = some ((pyIterList (dictGetD insights "key_relationships" (.arr []))).foldl
              (fun (acc : List (String × Json) × List ContactIntelligence) r =>
                match r with
                | .obj rel =>
                  (dictSet acc.1 (getEmailKey rel) (contactsKnowledgeEntry rel now),
                   update_contact_intelligence acc.2 u rel now)
                | _ => acc)
              ((sess.pending.user_intel.getD { user_email := u }).contacts_knowledge,
               sess.pending.contacts)).1
      ∧ s.committed.user_intel.map (·.general_business_knowledge)
          = some (sess.pending.user_intel.getD { user_email := u }).general_business_knowledge
      ∧ s.committed.user_intel.map (·.email_insights_cache)
          = some (sess.pending.user_intel.getD { user_email := u }).email_insights_cache
      ∧ s.committed.user_intel.map (·.tactical_notifications)
          = some (sess.pending.user_intel.getD { user_email := u }).tactical_notifications := by
  simp only [mergeEmailInsights, commitStep, hidx, hguard, hok0, hok1, if_true,
    Bool.false_eq_true, if_false]
  exact ⟨_, rfl, rfl, rfl, rfl, rfl⟩

/-- Witness for the amended C2 at the concrete half-merge scenario. -/
theorem staged_commit_partial_merge_witness :
    mergeGuard c2Insights = true
    ∧ c2Session.commitIdx = 0
    ∧ c2Okf 0 = true
    ∧ c2Okf 1 = false
    ∧ (∃ s, mergeEmailInsights c2Okf c2Session "u@x.com" c2Insights "t2" 7
        = .error ("PersistenceFailure", s)
      ∧ s.committed.user_intel.map (·.contacts_knowledge)
          = some ((pyIterList (dictGetD c2Insights "key_relationships" (.arr []))).foldl
              (fun (acc : List (String × Json) × List ContactIntelligence) r =>
                match r with
                | .obj rel =>
                  (dictSet acc.1 (getEmailKey rel) (contactsKnowledgeEntry rel "t2"),
                   update_contact_intelligence acc.2 "u@x.com" rel "t2")
                | _ => acc)
              ((c2Session.pending.user_intel.getD { user_email := "u@x.com" }).contacts_knowledge,
               c2Session.pending.contacts)).1
      ∧ s.committed.user_intel.map (·.general_business_knowledge)
          = some (c2Session.pending.user_intel.getD
              { user_email := "u@x.com" }).general_business_knowledge
      ∧ s.committed.user_intel.map (·.email_insights_cache)
          = some (c2Session.pending.user_intel.getD
              { user_email := "u@x.com" }).email_insights_cache
      ∧ s.committed.user_intel.map (·.tactical_notifications)
          = some (c2Session.pending.user_intel.getD
              { user_email := "u@x.com" }).tactical_notifications) :=
  ⟨rfl, rfl, rfl, rfl,
   staged_commit_partial_merge c2Okf c2Session "u@x.com" c2Insights "t2" 7
     rfl rfl rfl rfl⟩
